import Mathlib

/-!
Verification development for the OpenKore AI decision engine
(`ai-engine/src`).  The data model follows `include/types.hpp`; each C++
class is embedded as a namespace whose functions mirror the member
functions of the corresponding `.cpp` file.  Mutable member state is made
explicit: a stateful member function of a class with mutable fields takes
the record of those fields and returns the updated record.  C++ `float`
arithmetic on the small threshold constants is modelled over `ℚ`; an
unguarded float division is modelled by `FloatVal`, which keeps the IEEE
outcomes `+inf`, `-inf` and `NaN` of a zero denominator observable.
-/

namespace OpenkoreAI

/-! ## Shared data model (include/types.hpp) -/

structure Position where
  map : String
  x : Int
  y : Int
deriving DecidableEq

structure CharacterState where
  name : String
  level : Int
  hp : Int
  max_hp : Int
  sp : Int
  max_sp : Int
  position : Position
  weight : Int
  max_weight : Int
  zeny : Int
  job_class : String
  status_effects : List String
deriving DecidableEq

structure Monster where
  id : String
  name : String
  hp : Int
  max_hp : Int
  distance : Int
  is_aggressive : Bool
deriving DecidableEq

structure Item where
  id : String
  name : String
  amount : Int
  type : String
deriving DecidableEq

structure Player where
  name : String
  level : Int
  guild : String
  distance : Int
  is_party_member : Bool
deriving DecidableEq

structure GameState where
  character : CharacterState
  monsters : List Monster
  inventory : List Item
  nearby_players : List Player
  timestamp_ms : Int
deriving DecidableEq

/-- `Action` from types.hpp.  `parameters` is the string-keyed map, kept as
an association list in assignment order. -/
structure Action where
  type : String
  parameters : List (String × String)
  reason : String
  confidence : ℚ
deriving DecidableEq

inductive DecisionTier where
  | REFLEX
  | RULES
  | ML
  | LLM
deriving DecidableEq

/-! ## Comparison helpers

Boolean reflections of the arithmetic comparisons appearing in the C++
sources. -/

def ilt (a b : Int) : Bool := decide (a < b)

def ile (a b : Int) : Bool := decide (a ≤ b)

def natLt (a b : Nat) : Bool := decide (a < b)

def natLe (a b : Nat) : Bool := decide (a ≤ b)

def qlt (a b : ℚ) : Bool := decide (a < b)

/-- Prefix test on character lists, used by `strContains`. -/
def listBeginsWith : List Char → List Char → Bool
  | _, [] => true
  | [], _ :: _ => false
  | c :: cs, d :: ds => c == d && listBeginsWith cs ds

/-- Substring occurrence on character lists: `sub` occurs at some
position of `s`. -/
def listHasSub : List Char → List Char → Bool
  | [], sub => sub.isEmpty
  | c :: cs, sub => listBeginsWith (c :: cs) sub || listHasSub cs sub

/-- C++ `std::string::find(sub) != npos`, i.e. substring containment. -/
def strContains (s sub : String) : Bool := listHasSub s.data sub.data

/-- Value of the C++ `float` division `num / den` of two ints.  A zero
denominator yields an infinity or NaN exactly as IEEE-754 prescribes;
a nonzero denominator is kept exact over `ℚ`. -/
inductive FloatVal where
  | fin (q : ℚ)
  | pinf
  | ninf
  | nan
deriving DecidableEq

def fdiv (num den : Int) : FloatVal :=
  if den = 0 then
    if 0 < num then .pinf else if num < 0 then .ninf else .nan
  else .fin (Rat.divInt num den)

/-- `v < t` for a float division result and a finite threshold. -/
def FloatVal.ltQ : FloatVal → ℚ → Bool
  | .fin q, t => decide (q < t)
  | .pinf, _ => false
  | .ninf, _ => true
  | .nan, _ => false

/-- `v > t` for a float division result and a finite threshold. -/
def FloatVal.gtQ : FloatVal → ℚ → Bool
  | .fin q, t => decide (t < q)
  | .pinf, _ => true
  | .ninf, _ => false
  | .nan, _ => false

/-- `v >= t` for a float division result and a finite threshold. -/
def FloatVal.geQ : FloatVal → ℚ → Bool
  | .fin q, t => decide (t ≤ q)
  | .pinf, _ => true
  | .ninf, _ => false
  | .nan, _ => false

/-- C++ comparison `step < size` between a signed `int` and the unsigned
`size_t` container size: the int is converted to `size_t`, so a negative
step compares huge and the test is false. -/
def stepInRange (step : Int) (len : Nat) : Bool := decide (0 ≤ step ∧ step < (len : Int))

/-! ## ReflexTier (src/decision/reflex.cpp) -/

namespace ReflexTier

def HP_CRITICAL_THRESHOLD : ℚ := Rat.divInt 1 4

def HP_LOW_THRESHOLD : ℚ := Rat.divInt 2 5

def SP_LOW_THRESHOLD : ℚ := Rat.divInt 1 5

def WEIGHT_CRITICAL_THRESHOLD : ℚ := Rat.divInt 9 10

def is_hp_critical (s : GameState) : Bool :=
  if s.character.max_hp = 0 then false
  else (fdiv s.character.hp s.character.max_hp).ltQ HP_CRITICAL_THRESHOLD

def is_sp_low (s : GameState) : Bool :=
  if s.character.max_sp = 0 then false
  else (fdiv s.character.sp s.character.max_sp).ltQ SP_LOW_THRESHOLD

def is_being_attacked (s : GameState) : Bool :=
  s.monsters.any fun m => m.is_aggressive && ile m.distance 5

def dangerous_statuses : List String :=
  ["Stunned", "Frozen", "Stone Curse", "Sleep", "Blind", "Silence"]

def has_dangerous_status (s : GameState) : Bool :=
  s.character.status_effects.any fun st => dangerous_statuses.any fun d => st == d

def is_overweight (s : GameState) : Bool :=
  if s.character.max_weight = 0 then false
  else (fdiv s.character.weight s.character.max_weight).geQ WEIGHT_CRITICAL_THRESHOLD

/-- `ReflexTier::should_handle`.  Note the under-attack branch recomputes
the hp ratio by an unguarded division. -/
def should_handle (s : GameState) : Bool :=
  if is_hp_critical s then true
  else if has_dangerous_status s then true
  else if is_overweight s then true
  else if is_being_attacked s then
    if (fdiv s.character.hp s.character.max_hp).ltQ HP_LOW_THRESHOLD then true
    else is_sp_low s
  else is_sp_low s

/-- The parenthesized condition of decision priority 3:
`hp < max_hp * HP_LOW_THRESHOLD && is_being_attacked`, with the
comparison against the 2/5 threshold written over `ℤ` by clearing the
denominator: `5 * hp < 2 * max_hp`. -/
def low_hp_under_attack (s : GameState) : Bool :=
  ilt (5 * s.character.hp) (2 * s.character.max_hp) && is_being_attacked s

def decide (s : GameState) : Action :=
  if is_hp_critical s then
    { type := "item", parameters := [("item", "White Potion")],
      reason := "Reflex: HP critical (<25%), emergency healing", confidence := Rat.divInt 19 20 }
  else if has_dangerous_status s then
    { type := "item", parameters := [("item", "Green Potion")],
      reason := "Reflex: Dangerous status effect detected", confidence := Rat.divInt 19 20 }
  else if is_hp_critical s || low_hp_under_attack s then
    { type := "item", parameters := [("item", "Red Potion")],
      reason := "Reflex: Low HP while under attack", confidence := Rat.divInt 19 20 }
  else if is_overweight s then
    { type := "command", parameters := [("command", "storage")],
      reason := "Reflex: Overweight, need to store items", confidence := Rat.divInt 19 20 }
  else if is_sp_low s then
    { type := "item", parameters := [("item", "Blue Potion")],
      reason := "Reflex: SP critically low", confidence := Rat.divInt 19 20 }
  else
    { type := "none", parameters := [],
      reason := "Reflex: No emergency detected", confidence := Rat.divInt 1 2 }

end ReflexTier

/-! ## RulesTier (src/decision/rules.cpp) -/

namespace RulesTier

def HP_HEAL_THRESHOLD : ℚ := Rat.divInt 3 5

def SP_SKILL_THRESHOLD : ℚ := Rat.divInt 3 10

def MAX_ATTACK_DISTANCE : Int := 15

def SAFE_DISTANCE : Int := 8

/-- The hp ratio computed (unguarded) at the top of `RulesTier::should_heal`. -/
def hp_ratio_value (s : GameState) : FloatVal :=
  fdiv s.character.hp s.character.max_hp

def should_heal (s : GameState) : Bool :=
  (hp_ratio_value s).ltQ HP_HEAL_THRESHOLD && (hp_ratio_value s).gtQ (Rat.divInt 1 4)

def should_handle (s : GameState) : Bool :=
  !s.monsters.isEmpty || should_heal s

def emptyMonster : Monster :=
  { id := "", name := "", hp := 0, max_hp := 0, distance := 0, is_aggressive := false }

def find_best_target (s : GameState) : Monster :=
  (s.monsters.foldl
    (fun acc m =>
      if ilt MAX_ATTACK_DISTANCE m.distance then acc
      else if m.is_aggressive && ilt m.distance acc.2 then (m, m.distance)
      else if !m.is_aggressive && acc.1.id == "" && ilt m.distance acc.2 then (m, m.distance)
      else acc)
    (emptyMonster, 2147483647)).1

def should_attack (s : GameState) : Bool :=
  if s.monsters.isEmpty then false
  else if (fdiv s.character.hp s.character.max_hp).ltQ (Rat.divInt 2 5) then false
  else s.monsters.any fun m => ile m.distance MAX_ATTACK_DISTANCE

def is_in_safe_position (s : GameState) : Bool :=
  natLt ((s.monsters.filter fun m => m.is_aggressive && ile m.distance SAFE_DISTANCE).length) 3

def decide_combat (s : GameState) : Action :=
  let target := find_best_target s
  if target.id == "" then
    { type := "none", parameters := [], reason := "Rules: No valid target found",
      confidence := Rat.divInt 4 5 }
  else if (fdiv s.character.sp s.character.max_sp).gtQ SP_SKILL_THRESHOLD && ile target.distance 10 then
    { type := "skill", parameters := [("skill", "Bash"), ("target", target.id)],
      reason := "Rules: Using skill attack on " ++ target.name, confidence := Rat.divInt 4 5 }
  else
    { type := "attack", parameters := [("target", target.id)],
      reason := "Rules: Basic attack on " ++ target.name, confidence := Rat.divInt 4 5 }

def decide_positioning (s : GameState) : Action :=
  if natLe 3 ((s.monsters.filter fun m => m.is_aggressive && ile m.distance SAFE_DISTANCE).length) then
    { type := "move", parameters := [("direction", "away")],
      reason := "Rules: Too many aggressive monsters, retreating", confidence := Rat.divInt 7 10 }
  else
    { type := "none", parameters := [], reason := "Rules: Position is safe", confidence := Rat.divInt 7 10 }

def decide_healing (s : GameState) : Action :=
  if (fdiv s.character.hp s.character.max_hp).ltQ HP_HEAL_THRESHOLD then
    { type := "item", parameters := [("item", "Red Potion")],
      reason := "Rules: HP below 60%, healing", confidence := Rat.divInt 3 4 }
  else
    { type := "none", parameters := [], reason := "Rules: HP sufficient", confidence := Rat.divInt 3 4 }

def decide (s : GameState) : Action :=
  if should_heal s then decide_healing s
  else if should_attack s then decide_combat s
  else if !is_in_safe_position s then decide_positioning s
  else
    { type := "none", parameters := [], reason := "Rules: No tactical action required",
      confidence := Rat.divInt 3 5 }

end RulesTier

/-! ## MLTier and LLMTier (src/decision/ml.cpp, src/decision/llm.cpp)

The external inference services are abstracted by an `Option Action`
oracle: `some a` is a successful parsed service reply, `none` is any
connection failure, non-200 status or absent recommendation. -/

namespace MLTier

def should_handle (_s : GameState) : Bool := false

def decide (serviceReply : Option Action) : Action :=
  serviceReply.getD
    { type := "none", parameters := [],
      reason := "ML: Model not loaded or service unavailable", confidence := Rat.divInt 1 10 }

end MLTier

namespace LLMTier

def MIN_QUERY_INTERVAL_MS : Int := 60000

def should_handle (last_query_time_ms now_ms : Int) (s : GameState) : Bool :=
  if now_ms - last_query_time_ms < MIN_QUERY_INTERVAL_MS then false
  else s.character.level.tmod 10 == 0 && ile 10 s.character.level

def decide (serviceReply : Option Action) : Action :=
  serviceReply.getD
    { type := "none", parameters := [],
      reason := "LLM: Query failed, no strategic action", confidence := Rat.divInt 1 5 }

end LLMTier

/-! ## Coordinator framework (src/coordinators)

`CoordinatorBase` supplies a fixed name and priority per coordinator and
the `create_action` helper.  The three stateful coordinators carry their
mutable member fields as explicit state records. -/

inductive Priority where
  | CRITICAL
  | HIGH
  | MEDIUM
  | LOW
  | IDLE
deriving DecidableEq

/-- The integer value of the `Priority` enum. -/
def Priority.val : Priority → Nat
  | .CRITICAL => 0
  | .HIGH => 1
  | .MEDIUM => 2
  | .LOW => 3
  | .IDLE => 4

/-- `CoordinatorBase::create_action`: empty parameter map, reason prefixed
with the coordinator name. -/
def CoordinatorBase.create_action (name type reason : String) (confidence : ℚ) : Action :=
  { type := type, parameters := [], reason := name ++ ": " ++ reason, confidence := confidence }

/-! ### CombatCoordinator (stateless, Priority::HIGH) -/

namespace CombatCoordinator

def should_activate (s : GameState) : Bool :=
  if s.monsters.isEmpty then false
  else (fdiv s.character.hp s.character.max_hp).gtQ (Rat.divInt 1 2)

def emptyMonster : Monster :=
  { id := "", name := "", hp := 0, max_hp := 0, distance := 0, is_aggressive := false }

def select_target (s : GameState) : Monster :=
  (s.monsters.foldl
    (fun acc m =>
      if ilt 15 m.distance then acc
      else if m.is_aggressive then
        (if ilt m.distance acc.2 then (m, m.distance) else acc)
      else if acc.1.id == "" && ilt m.distance acc.2 then (m, m.distance)
      else acc)
    (emptyMonster, 999)).1

def select_skill (s : GameState) : String :=
  if (fdiv s.character.sp s.character.max_sp).ltQ (Rat.divInt 3 10) then ""
  else if s.character.job_class == "Knight" || s.character.job_class == "Swordsman" then "Bash"
  else if s.character.job_class == "Wizard" || s.character.job_class == "Magician" then "Fire Bolt"
  else if s.character.job_class == "Hunter" || s.character.job_class == "Archer" then "Double Strafe"
  else ""

def should_use_aoe (s : GameState) : Bool :=
  natLe 3 ((s.monsters.filter fun m => ile m.distance 5).length)

def decide (s : GameState) : Action :=
  let target := select_target s
  if target.id == "" then
    CoordinatorBase.create_action "CombatCoordinator" "none" "No valid combat target" (Rat.divInt 1 2)
  else if should_use_aoe s then
    { CoordinatorBase.create_action "CombatCoordinator" "skill" "Multiple targets, using AOE" (Rat.divInt 17 20) with
      parameters := [("skill", "Magnum Break"), ("target_area", "self")] }
  else
    let skill := select_skill s
    if !(skill == "") then
      { CoordinatorBase.create_action "CombatCoordinator" "skill"
          ("Using optimal skill on " ++ target.name) (Rat.divInt 9 10) with
        parameters := [("skill", skill), ("target", target.id)] }
    else
      { CoordinatorBase.create_action "CombatCoordinator" "attack"
          ("Basic attack on " ++ target.name) (Rat.divInt 3 4) with
        parameters := [("target", target.id)] }

end CombatCoordinator

/-! ### EconomyCoordinator (stateless, Priority::MEDIUM) -/

namespace EconomyCoordinator

/-- The weight ratio computed (unguarded) in `EconomyCoordinator::is_overweight`. -/
def weight_ratio_value (s : GameState) : FloatVal :=
  fdiv s.character.weight s.character.max_weight

def is_overweight (s : GameState) : Bool :=
  (weight_ratio_value s).gtQ (Rat.divInt 17 20)

def should_sell_items (s : GameState) : Bool :=
  natLt 50 s.inventory.length

def should_activate (s : GameState) : Bool :=
  is_overweight s || should_sell_items s

def decide (s : GameState) : Action :=
  if is_overweight s then
    CoordinatorBase.create_action "EconomyCoordinator" "move" "Overweight, returning to storage" (Rat.divInt 17 20)
  else if should_sell_items s then
    CoordinatorBase.create_action "EconomyCoordinator" "move" "Inventory full, going to sell items" (Rat.divInt 4 5)
  else
    CoordinatorBase.create_action "EconomyCoordinator" "none" "Economy check passed" (Rat.divInt 1 2)

end EconomyCoordinator

/-! ### NavigationCoordinator (stateful, Priority::LOW)

Mutable members: `stuck_counter_`, `stuck_threshold_`, `last_position_x_`,
`last_position_y_`.  `handle_stuck` consumes two `rand()` draws for the
random-walk coordinates; they are passed in as an explicit pair. -/

structure NavState where
  stuck_counter : Int
  stuck_threshold : Int
  last_position_x : Int
  last_position_y : Int
deriving DecidableEq

def navInit : NavState :=
  { stuck_counter := 0, stuck_threshold := 3, last_position_x := -1, last_position_y := -1 }

namespace NavigationCoordinator

def is_stuck (st : NavState) (s : GameState) : Bool :=
  if st.last_position_x == s.character.position.x && st.last_position_y == s.character.position.y then
    ile st.stuck_threshold st.stuck_counter
  else false

def should_activate (st : NavState) (s : GameState) : Bool :=
  is_stuck st s

def handle_stuck (s : GameState) (rng : Nat × Nat) : Action :=
  if s.inventory.any (fun i => i.name == "Fly Wing" && ilt 0 i.amount) then
    { CoordinatorBase.create_action "NavigationCoordinator" "item" "Stuck - using Fly Wing" (Rat.divInt 9 10) with
      parameters := [("item", "Fly Wing")] }
  else
    { CoordinatorBase.create_action "NavigationCoordinator" "move" "Stuck - random walk" (Rat.divInt 4 5) with
      parameters :=
        [("x", toString (s.character.position.x + ((rng.1 % 5 : Nat) : Int) - 2)),
         ("y", toString (s.character.position.y + ((rng.2 % 5 : Nat) : Int) - 2))] }

/-- `NavigationCoordinator::decide` reads the stuck-tracking members but
never assigns them, so the post-state equals the pre-state. -/
def decide (st : NavState) (s : GameState) (rng : Nat × Nat) : Action × NavState :=
  if is_stuck st s then (handle_stuck s rng, st)
  else (CoordinatorBase.create_action "NavigationCoordinator" "none" "Navigation OK" (Rat.divInt 1 10), st)

/-- `NavigationCoordinator::navigate_to_destination`: the only member
function that updates the stuck-tracking state. -/
def navigate_to_destination (st : NavState) (s : GameState) : Action × NavState :=
  let st1 :=
    if st.last_position_x == s.character.position.x && st.last_position_y == s.character.position.y then
      { st with stuck_counter := st.stuck_counter + 1 }
    else
      { st with stuck_counter := 0,
                last_position_x := s.character.position.x,
                last_position_y := s.character.position.y }
  (CoordinatorBase.create_action "NavigationCoordinator" "none" "No destination" (Rat.divInt 1 10), st1)

end NavigationCoordinator

/-! ### NPCCoordinator (stateful, Priority::MEDIUM) -/

inductive DialogueState where
  | IDLE
  | TALKING
  | MENU
  | BUYING
  | SELLING
deriving DecidableEq

structure NPCState where
  current_npc_id : String
  dialogue_state : DialogueState
deriving DecidableEq

def npcInit : NPCState := { current_npc_id := "", dialogue_state := .IDLE }

namespace NPCCoordinator

def check_need_potions (s : GameState) : Bool :=
  let counts := s.inventory.foldl
    (fun acc i =>
      if strContains i.name "Potion" then
        (if strContains i.name "Red" || strContains i.name "White" then acc.1 + i.amount else acc.1,
         if strContains i.name "Blue" then acc.2 + i.amount else acc.2)
      else acc)
    ((0 : Int), (0 : Int))
  ilt counts.1 10 || ilt counts.2 10

def should_activate (st : NPCState) (s : GameState) : Bool :=
  if st.dialogue_state ≠ .IDLE then true
  else check_need_potions s

def handle_active_dialogue (st : NPCState) : Action × NPCState :=
  match st.dialogue_state with
  | .TALKING =>
    ({ CoordinatorBase.create_action "NPCCoordinator" "npc_talk" "Continue dialogue" (Rat.divInt 9 10) with
       parameters := [("action", "continue")] }, st)
  | .MENU =>
    ({ CoordinatorBase.create_action "NPCCoordinator" "npc_menu" "Select menu option" (Rat.divInt 9 10) with
       parameters := [("option", "0")] }, st)
  | .BUYING =>
    ({ CoordinatorBase.create_action "NPCCoordinator" "npc_buy" "Purchase items" (Rat.divInt 9 10) with
       parameters := [("items", "potions")] }, st)
  | _ =>
    (CoordinatorBase.create_action "NPCCoordinator" "npc_close" "Close dialogue" (Rat.divInt 4 5),
     { st with dialogue_state := .IDLE })

def decide (st : NPCState) (s : GameState) : Action × NPCState :=
  if st.dialogue_state ≠ .IDLE then handle_active_dialogue st
  else if check_need_potions s then
    ({ CoordinatorBase.create_action "NPCCoordinator" "talk" "Need to buy consumables" (Rat.divInt 3 4) with
       parameters := [("target", "Tool Dealer"), ("action", "buy_potions")] }, st)
  else
    (CoordinatorBase.create_action "NPCCoordinator" "none" "NPC: No interaction needed" (Rat.divInt 1 10), st)

end NPCCoordinator

/-! ### PlanningCoordinator (stateful, Priority::LOW) -/

structure PlanState where
  active_plan : List Action
  current_plan_step : Int
  has_active_plan : Bool
deriving DecidableEq

def planInit : PlanState :=
  { active_plan := [], current_plan_step := 0, has_active_plan := false }

namespace PlanningCoordinator

def needs_complex_planning (s : GameState) : Bool :=
  let hp_percent : FloatVal :=
    if 0 < s.character.max_hp then fdiv s.character.hp s.character.max_hp else .fin 1
  natLe 3 s.monsters.length && hp_percent.ltQ (Rat.divInt 3 10)

def heal_step : Action :=
  { CoordinatorBase.create_action "PlanningCoordinator" "item" "Plan: Emergency heal" (Rat.divInt 19 20) with
    parameters := [("item", "White Potion")] }

def retreat_step : Action :=
  { CoordinatorBase.create_action "PlanningCoordinator" "move" "Plan: Retreat" (Rat.divInt 9 10) with
    parameters := [("direction", "retreat")] }

def create_plan_for_current_situation (s : GameState) : PlanState :=
  if needs_complex_planning s then
    { active_plan := [heal_step, retreat_step], current_plan_step := 0, has_active_plan := true }
  else
    { active_plan := [], current_plan_step := 0, has_active_plan := false }

def no_plan_action : Action :=
  CoordinatorBase.create_action "PlanningCoordinator" "none" "No plan active" (Rat.divInt 1 10)

def should_activate (st : PlanState) (s : GameState) : Bool :=
  if st.has_active_plan && stepInRange st.current_plan_step st.active_plan.length then true
  else needs_complex_planning s

def decide (st : PlanState) (s : GameState) : Action × PlanState :=
  let st1 :=
    if !st.has_active_plan || st.active_plan.isEmpty then create_plan_for_current_situation s
    else st
  if st1.has_active_plan && stepInRange st1.current_plan_step st1.active_plan.length then
    let step := st1.active_plan.getD st1.current_plan_step.toNat no_plan_action
    let next := st1.current_plan_step + 1
    if ile (st1.active_plan.length : Int) next then
      (step, { active_plan := [], current_plan_step := 0, has_active_plan := false })
    else
      (step, { st1 with current_plan_step := next })
  else
    (no_plan_action, st1)

end PlanningCoordinator

/-! ### SocialCoordinator (stateless, Priority::LOW) -/

namespace SocialCoordinator

def should_activate (s : GameState) : Bool :=
  if s.nearby_players.isEmpty then false
  else if !s.monsters.isEmpty &&
          ((fdiv s.character.hp s.character.max_hp).ltQ (Rat.divInt 4 5) || natLt 2 s.monsters.length) then
    false
  else s.nearby_players.any fun p => ile p.distance 10

def closest_player (s : GameState) : String × Int :=
  s.nearby_players.foldl
    (fun acc p => if ilt p.distance acc.2 && ile p.distance 10 then (p.name, p.distance) else acc)
    ("", 999)

def decide (s : GameState) : Action :=
  let closest := closest_player s
  if closest.1 == "" then
    CoordinatorBase.create_action "SocialCoordinator" "none"
      "No nearby players for social interaction" (Rat.divInt 1 10)
  else
    CoordinatorBase.create_action "SocialCoordinator" "none"
      ("Monitoring social interactions with " ++ closest.1 ++ " (distance: " ++
        toString closest.2 ++ " cells)") (Rat.divInt 3 10)

end SocialCoordinator

/-! ### ConsumablesCoordinator (stateless, Priority::MEDIUM)

The five thresholds are set once in the constructor and never reassigned. -/

namespace ConsumablesCoordinator

def hp_emergency_threshold : ℚ := Rat.divInt 3 10

def hp_warning_threshold : ℚ := Rat.divInt 1 2

def sp_emergency_threshold : ℚ := Rat.divInt 1 5

def sp_warning_threshold : ℚ := Rat.divInt 2 5

def weight_warning_threshold : ℚ := Rat.divInt 4 5

def hp_percent (s : GameState) : FloatVal :=
  if 0 < s.character.max_hp then fdiv s.character.hp s.character.max_hp else .fin 1

def sp_percent (s : GameState) : FloatVal :=
  if 0 < s.character.max_sp then fdiv s.character.sp s.character.max_sp else .fin 1

def weight_percent (s : GameState) : FloatVal :=
  if 0 < s.character.max_weight then fdiv s.character.weight s.character.max_weight else .fin 0

def should_activate (s : GameState) : Bool :=
  (hp_percent s).ltQ hp_warning_threshold || (sp_percent s).ltQ sp_warning_threshold ||
    (weight_percent s).gtQ weight_warning_threshold

def find_first_carried (s : GameState) (names : List String) : String :=
  match names.find? (fun n => s.inventory.any fun i => i.name == n && ilt 0 i.amount) with
  | some n => n
  | none => ""

def find_best_hp_item (s : GameState) (emergency : Bool) : String :=
  find_first_carried s
    (if emergency then ["White Potion", "Red Potion", "Orange Potion", "Yellow Potion"]
     else ["Red Potion", "Orange Potion", "Yellow Potion"])

def find_best_sp_item (s : GameState) : String :=
  find_first_carried s ["Blue Potion", "Royal Jelly"]

def find_item_to_drop (s : GameState) : String :=
  find_first_carried s ["Jellopy", "Fluff", "Clover"]

def decide (s : GameState) : Action :=
  let hpItem := find_best_hp_item s true
  let hpWarnItem := find_best_hp_item s false
  let spItem := find_best_sp_item s
  let dropItem := find_item_to_drop s
  if (hp_percent s).ltQ hp_emergency_threshold && !(hpItem == "") then
    { CoordinatorBase.create_action "ConsumablesCoordinator" "item" "EMERGENCY: HP critical" (Rat.divInt 19 20) with
      parameters := [("item", hpItem), ("emergency", "true")] }
  else if (hp_percent s).ltQ hp_warning_threshold && !(hpWarnItem == "") then
    { CoordinatorBase.create_action "ConsumablesCoordinator" "item" "HP low" (Rat.divInt 3 4) with
      parameters := [("item", hpWarnItem)] }
  else if (sp_percent s).ltQ sp_emergency_threshold && !(spItem == "") then
    { CoordinatorBase.create_action "ConsumablesCoordinator" "item" "SP critical" (Rat.divInt 17 20) with
      parameters := [("item", spItem)] }
  else if (sp_percent s).ltQ sp_warning_threshold && !(spItem == "") then
    { CoordinatorBase.create_action "ConsumablesCoordinator" "item" "SP low" (Rat.divInt 13 20) with
      parameters := [("item", spItem)] }
  else if (weight_percent s).gtQ weight_warning_threshold && !(dropItem == "") then
    { CoordinatorBase.create_action "ConsumablesCoordinator" "drop" "Overweight" (Rat.divInt 7 10) with
      parameters := [("item", dropItem), ("amount", "1")] }
  else
    CoordinatorBase.create_action "ConsumablesCoordinator" "none" "Consumables OK" (Rat.divInt 1 10)

end ConsumablesCoordinator

/-! ### ProgressionCoordinator (Priority::LOW) -/

namespace ProgressionCoordinator

def should_activate (_s : GameState) : Bool := false

def is_first_job (job_class : String) : Bool :=
  job_class == "Swordsman" || job_class == "Magician" || job_class == "Archer" ||
    job_class == "Acolyte" || job_class == "Merchant" || job_class == "Thief"

def decide (s : GameState) : Action :=
  if s.character.level == 10 && s.character.job_class == "Novice" then
    { CoordinatorBase.create_action "ProgressionCoordinator" "job_change"
        "Ready for First Job at level 10" (Rat.divInt 9 10) with
      parameters := [("target_job", "auto")] }
  else if s.character.level == 50 && is_first_job s.character.job_class then
    { CoordinatorBase.create_action "ProgressionCoordinator" "job_change"
        "Ready for Second Job at level 50" (Rat.divInt 9 10) with
      parameters := [("target_job", "auto")] }
  else
    CoordinatorBase.create_action "ProgressionCoordinator" "none" "Progression on track" (Rat.divInt 1 10)

end ProgressionCoordinator

/-! ### Stub coordinators (src/coordinators/stub_coordinators.cpp) -/

namespace CompanionsCoordinator

def should_activate (_s : GameState) : Bool := false

def decide (_s : GameState) : Action :=
  CoordinatorBase.create_action "CompanionsCoordinator" "none" "Companions OK" (Rat.divInt 1 10)

end CompanionsCoordinator

namespace InstancesCoordinator

def should_activate (_s : GameState) : Bool := false

def decide (_s : GameState) : Action :=
  CoordinatorBase.create_action "InstancesCoordinator" "none" "No instances active" (Rat.divInt 1 10)

end InstancesCoordinator

namespace CraftingCoordinator

def should_activate (_s : GameState) : Bool := false

def decide (_s : GameState) : Action :=
  CoordinatorBase.create_action "CraftingCoordinator" "none" "No crafting opportunities" (Rat.divInt 1 10)

end CraftingCoordinator

namespace EnvironmentCoordinator

def should_activate (_s : GameState) : Bool := false

def decide (_s : GameState) : Action :=
  CoordinatorBase.create_action "EnvironmentCoordinator" "none" "Normal conditions" (Rat.divInt 1 10)

end EnvironmentCoordinator

namespace JobSpecificCoordinator

def should_activate (s : GameState) : Bool :=
  if s.character.job_class == "Priest" || s.character.job_class == "Sage" then
    !s.nearby_players.isEmpty
  else !s.monsters.isEmpty

def decide (s : GameState) : Action :=
  let job := s.character.job_class
  let healTarget : Option Player :=
    if job == "Priest" || job == "Acolyte" then s.nearby_players.find? fun p => ile p.distance 9
    else none
  match healTarget with
  | some p =>
    { CoordinatorBase.create_action "JobSpecificCoordinator" "skill" "Heal party member" (Rat.divInt 9 10) with
      parameters := [("skill", "Heal"), ("target", p.name)] }
  | none =>
    if (job == "Wizard" || job == "Magician") && natLe 3 s.monsters.length then
      { CoordinatorBase.create_action "JobSpecificCoordinator" "skill" "AOE on monsters" (Rat.divInt 17 20) with
        parameters := [("skill", "Storm Gust")] }
    else
      CoordinatorBase.create_action "JobSpecificCoordinator" "none" "No class-specific action" (Rat.divInt 1 10)

end JobSpecificCoordinator

namespace PvPWoECoordinator

def should_activate (_s : GameState) : Bool := false

def decide (_s : GameState) : Action :=
  CoordinatorBase.create_action "PvPWoECoordinator" "none" "Not in PvP zone" (Rat.divInt 1 10)

end PvPWoECoordinator

/-! ## CoordinatorManager (src/coordinators/coordinator_manager.cpp)

`initialize` pushes the 14 coordinators in a fixed order; the registry is
embedded as a list of tags dispatched to the namespaces above (the C++
virtual dispatch).  The mutable members of the three stateful
coordinators are gathered in `CoordState` and threaded through the
activation/decision loop exactly as the shared objects are in C++. -/

structure CoordState where
  nav : NavState
  npc : NPCState
  plan : PlanState
deriving DecidableEq

def coordInit : CoordState := { nav := navInit, npc := npcInit, plan := planInit }

inductive CoordinatorKind where
  | combat
  | economy
  | navigation
  | npc
  | planning
  | social
  | consumables
  | progression
  | companions
  | instances
  | crafting
  | environment
  | jobSpecific
  | pvpWoE
deriving DecidableEq

/-- The fixed priority each coordinator passes to `CoordinatorBase` at
construction. -/
def CoordinatorKind.priority : CoordinatorKind → Priority
  | .combat => .HIGH
  | .economy => .MEDIUM
  | .navigation => .LOW
  | .npc => .MEDIUM
  | .planning => .LOW
  | .social => .LOW
  | .consumables => .MEDIUM
  | .progression => .LOW
  | .companions => .LOW
  | .instances => .MEDIUM
  | .crafting => .LOW
  | .environment => .LOW
  | .jobSpecific => .MEDIUM
  | .pvpWoE => .HIGH

def CoordinatorKind.should_activate : CoordinatorKind → CoordState → GameState → Bool
  | .combat, _, s => CombatCoordinator.should_activate s
  | .economy, _, s => EconomyCoordinator.should_activate s
  | .navigation, cs, s => NavigationCoordinator.should_activate cs.nav s
  | .npc, cs, s => NPCCoordinator.should_activate cs.npc s
  | .planning, cs, s => PlanningCoordinator.should_activate cs.plan s
  | .social, _, s => SocialCoordinator.should_activate s
  | .consumables, _, s => ConsumablesCoordinator.should_activate s
  | .progression, _, s => ProgressionCoordinator.should_activate s
  | .companions, _, s => CompanionsCoordinator.should_activate s
  | .instances, _, s => InstancesCoordinator.should_activate s
  | .crafting, _, s => CraftingCoordinator.should_activate s
  | .environment, _, s => EnvironmentCoordinator.should_activate s
  | .jobSpecific, _, s => JobSpecificCoordinator.should_activate s
  | .pvpWoE, _, s => PvPWoECoordinator.should_activate s

def CoordinatorKind.decide : CoordinatorKind → CoordState → GameState → Nat × Nat → Action × CoordState
  | .combat, cs, s, _ => (CombatCoordinator.decide s, cs)
  | .economy, cs, s, _ => (EconomyCoordinator.decide s, cs)
  | .navigation, cs, s, rng =>
    let r := NavigationCoordinator.decide cs.nav s rng
    (r.1, { cs with nav := r.2 })
  | .npc, cs, s, _ =>
    let r := NPCCoordinator.decide cs.npc s
    (r.1, { cs with npc := r.2 })
  | .planning, cs, s, _ =>
    let r := PlanningCoordinator.decide cs.plan s
    (r.1, { cs with plan := r.2 })
  | .social, cs, s, _ => (SocialCoordinator.decide s, cs)
  | .consumables, cs, s, _ => (ConsumablesCoordinator.decide s, cs)
  | .progression, cs, s, _ => (ProgressionCoordinator.decide s, cs)
  | .companions, cs, s, _ => (CompanionsCoordinator.decide s, cs)
  | .instances, cs, s, _ => (InstancesCoordinator.decide s, cs)
  | .crafting, cs, s, _ => (CraftingCoordinator.decide s, cs)
  | .environment, cs, s, _ => (EnvironmentCoordinator.decide s, cs)
  | .jobSpecific, cs, s, _ => (JobSpecificCoordinator.decide s, cs)
  | .pvpWoE, cs, s, _ => (PvPWoECoordinator.decide s, cs)

namespace CoordinatorManager

/-- The registry in the push order of `CoordinatorManager::initialize`. -/
def registry : List CoordinatorKind :=
  [.combat, .economy, .navigation, .npc, .planning, .social, .consumables, .progression,
   .companions, .instances, .crafting, .environment, .jobSpecific, .pvpWoE]

/-- A `(coordinator, action)` recommendation pair. -/
structure Candidate where
  kind : CoordinatorKind
  action : Action
deriving DecidableEq

/-- The `std::min_element` comparator of `select_best_action`: first by
priority value (lower wins), then by confidence (higher wins). -/
def candidateLess (a b : Candidate) : Bool :=
  if a.kind.priority.val ≠ b.kind.priority.val then natLt a.kind.priority.val b.kind.priority.val
  else qlt b.action.confidence a.action.confidence

/-- The scan of `std::min_element`: keep the current best unless a later
element is strictly smaller under `candidateLess`. -/
def selectLoop (best : Candidate) : List Candidate → Candidate
  | [] => best
  | c :: rest => selectLoop (if candidateLess c best then c else best) rest

def select_best_action : List Candidate → Action
  | [] =>
    { type := "none", parameters := [], reason := "CoordinatorManager: Selection failed",
      confidence := Rat.divInt 3 10 }
  | c :: rest => (selectLoop c rest).action

/-- The collection loop of `get_coordinator_decision`: poll every
registered coordinator in order; for each that activates, call `decide`
(threading the shared mutable state) and keep the result unless its kind
is the `none` sentinel. -/
def collectLoop : List CoordinatorKind → CoordState → GameState → Nat × Nat →
    List Candidate × CoordState
  | [], cs, _, _ => ([], cs)
  | c :: rest, cs, s, rng =>
    if c.should_activate cs s then
      let r := c.decide cs s rng
      let tail := collectLoop rest r.2 s rng
      (if r.1.type == "none" then tail.1 else ⟨c, r.1⟩ :: tail.1, tail.2)
    else collectLoop rest cs s rng

def no_recommendation_action : Action :=
  { type := "none", parameters := [],
    reason := "CoordinatorManager: No coordinator recommendations", confidence := Rat.divInt 1 2 }

def get_coordinator_decision (cs : CoordState) (s : GameState) (rng : Nat × Nat) :
    Action × CoordState :=
  let collected := collectLoop registry cs s rng
  if collected.1.isEmpty then (no_recommendation_action, collected.2)
  else (select_best_action collected.1, collected.2)

end CoordinatorManager

/-! ## Decision escalation engine (src/main.cpp) -/

inductive Branch where
  | reflex
  | coordinators
  | rules
  | ml
  | llm
  | fallback
deriving DecidableEq

/-- Outcome of one `make_decision` call: the response fields plus the
post-call mutable state of the coordinator framework and the LLM tier. -/
structure DecisionOutcome where
  action : Action
  tier_used : DecisionTier
  branch : Branch
  coord : CoordState
  llm_last_query_time_ms : Int
deriving DecidableEq

/-- The fallback of the final `make_decision` branch: `none`, medium
confidence, attributed to Reflex. -/
def fallback_action : Action :=
  { type := "none", parameters := [], reason := "No tier required action", confidence := Rat.divInt 1 2 }

/-- `make_decision` from main.cpp: Reflex, then the coordinator
subsystem, then Rules, ML and LLM, then the fallback.  `now_ms` is the
wall clock read by `LLMTier::should_handle`; `mlReply`/`llmReply` are the
external-service oracles. -/
def make_decision (cs : CoordState) (llm_last : Int) (s : GameState) (now_ms : Int)
    (rng : Nat × Nat) (mlReply llmReply : Option Action) : DecisionOutcome :=
  if ReflexTier.should_handle s then
    { action := ReflexTier.decide s, tier_used := .REFLEX, branch := .reflex,
      coord := cs, llm_last_query_time_ms := llm_last }
  else
    let co := CoordinatorManager.get_coordinator_decision cs s rng
    if co.1.type ≠ "none" then
      { action := co.1, tier_used := .RULES, branch := .coordinators,
        coord := co.2, llm_last_query_time_ms := llm_last }
    else if RulesTier.should_handle s then
      { action := RulesTier.decide s, tier_used := .RULES, branch := .rules,
        coord := co.2, llm_last_query_time_ms := llm_last }
    else if MLTier.should_handle s then
      { action := MLTier.decide mlReply, tier_used := .ML, branch := .ml,
        coord := co.2, llm_last_query_time_ms := llm_last }
    else if LLMTier.should_handle llm_last now_ms s then
      { action := LLMTier.decide llmReply, tier_used := .LLM, branch := .llm,
        coord := co.2, llm_last_query_time_ms := now_ms }
    else
      { action := fallback_action, tier_used := .REFLEX, branch := .fallback,
        coord := co.2, llm_last_query_time_ms := llm_last }

/-! ## DecisionStats (main.cpp) -/

structure Stats where
  reflex_count : Nat
  rules_count : Nat
  ml_count : Nat
  llm_count : Nat
  total_count : Nat
  avg_latency_ms : ℚ
deriving DecidableEq

def statsInit : Stats :=
  { reflex_count := 0, rules_count := 0, ml_count := 0, llm_count := 0, total_count := 0,
    avg_latency_ms := 0 }

/-- The per-branch counter increments of `make_decision`.  The
coordinator branch counts as `rules_count`; the fallback branch
increments nothing. -/
def update_counters (st : Stats) : Branch → Stats
  | .reflex => { st with reflex_count := st.reflex_count + 1, total_count := st.total_count + 1 }
  | .coordinators => { st with rules_count := st.rules_count + 1, total_count := st.total_count + 1 }
  | .rules => { st with rules_count := st.rules_count + 1, total_count := st.total_count + 1 }
  | .ml => { st with ml_count := st.ml_count + 1, total_count := st.total_count + 1 }
  | .llm => { st with llm_count := st.llm_count + 1, total_count := st.total_count + 1 }
  | .fallback => st

/-- The running-average update performed after the `done:` label on every
call. -/
def update_average_latency (st : Stats) (latency_ms : ℚ) : Stats :=
  if 0 < st.total_count then
    { st with avg_latency_ms :=
        (st.avg_latency_ms * ((st.total_count - 1 : Nat) : ℚ) + latency_ms) / (st.total_count : ℚ) }
  else { st with avg_latency_ms := latency_ms }

/-- The complete statistics effect of one `make_decision` call that took
the given branch and measured the given latency. -/
def record_decision (st : Stats) (br : Branch) (latency_ms : ℚ) : Stats :=
  update_average_latency (update_counters st br) latency_ms

/-- The tuple served by the `GET /api/v1/metrics` handler:
total, per-tier counts (reflex, rules, ml, llm) and average latency. -/
def metrics_report (st : Stats) : Nat × Nat × Nat × Nat × Nat × ℚ :=
  (st.total_count, st.reflex_count, st.rules_count, st.ml_count, st.llm_count, st.avg_latency_ms)

/-- The statistics invariant: the total equals the sum of the per-tier
counters. -/
def statsInvariant (st : Stats) : Prop :=
  st.total_count = st.reflex_count + st.rules_count + st.ml_count + st.llm_count

/-! ## Derived notions used by the verification -/

/-- Strict arbitration order: candidate `a` beats candidate `b` outright
(lower priority value, or equal priority and strictly higher confidence).
This is the propositional reading of the `select_best_action` comparator. -/
def keyLT (a b : CoordinatorManager.Candidate) : Prop :=
  a.kind.priority.val < b.kind.priority.val ∨
    (a.kind.priority.val = b.kind.priority.val ∧ b.action.confidence < a.action.confidence)

/-- Non-strict arbitration order: candidate `a` is at least as good as
candidate `b`. -/
def keyLE (a b : CoordinatorManager.Candidate) : Prop :=
  a.kind.priority.val < b.kind.priority.val ∨
    (a.kind.priority.val = b.kind.priority.val ∧ b.action.confidence ≤ a.action.confidence)

/-- One navigation decision cycle as driven by the coordinator manager's
loop: the coordinator's `decide` runs exactly when `should_activate`
holds, and the emitted action (if any) is recorded. -/
def nav_cycle (st : NavState) (s : GameState) (rng : Nat × Nat) : Option Action × NavState :=
  if NavigationCoordinator.should_activate st s then
    let r := NavigationCoordinator.decide st s rng
    (some r.1, r.2)
  else (none, st)

/-- `n` consecutive navigation decision cycles against a fixed snapshot,
collecting the emitted actions. -/
def nav_run : Nat → NavState → GameState → Nat × Nat → List (Option Action) × NavState
  | 0, st, _, _ => ([], st)
  | n + 1, st, s, rng =>
    let r := nav_cycle st s rng
    let rest := nav_run n r.2 s rng
    (r.1 :: rest.1, rest.2)

/-! ## Concrete snapshots and states used in the theorems -/

/-- Character-state constructor for the concrete test snapshots. -/
def mkChar (hp max_hp sp max_sp weight max_weight : Int) (job : String) : CharacterState :=
  { name := "T", level := 5, hp := hp, max_hp := max_hp, sp := sp, max_sp := max_sp,
    position := { map := "prt", x := 5, y := 5 }, weight := weight, max_weight := max_weight,
    zeny := 0, job_class := job, status_effects := [] }

def monAt (d : Int) : Monster :=
  { id := "m", name := "M", hp := 10, max_hp := 10, distance := d, is_aggressive := false }

def aggMonAt (d : Int) : Monster :=
  { id := "a", name := "A", hp := 10, max_hp := 10, distance := d, is_aggressive := true }

/-- A healthy character facing one non-aggressive monster out of attack
range, with full potion stock: Rules activates (monsters present) but its
decision is the `none` sentinel. -/
def cexStateC1 : GameState :=
  { character := mkChar 100 100 100 100 0 100 "Novice",
    monsters := [{ id := "m1", name := "Poring", hp := 50, max_hp := 50, distance := 20,
                   is_aggressive := false }],
    inventory := [{ id := "501", name := "Red Potion", amount := 20, type := "healing" },
                  { id := "505", name := "Blue Potion", amount := 20, type := "healing" }],
    nearby_players := [], timestamp_ms := 0 }

/-- Snapshot with `max_hp = 0` and no monsters, so `RulesTier`
activation reaches `should_heal` and its unguarded hp division. -/
def zeroMaxHpState : GameState :=
  { character := mkChar 0 0 10 10 0 100 "Novice", monsters := [], inventory := [],
    nearby_players := [], timestamp_ms := 0 }

/-- Snapshot with `max_weight = 0` and positive carried weight for the
economy coordinator's unguarded weight division. -/
def zeroMaxWeightState : GameState :=
  { character := mkChar 100 100 10 10 50 0 "Novice", monsters := [], inventory := [],
    nearby_players := [], timestamp_ms := 0 }

/-- A Swordsman with one nearby monster: activates the job-specific
coordinator. -/
def swordsmanState : GameState :=
  { character := mkChar 100 100 50 50 0 100 "Swordsman", monsters := [monAt 4], inventory := [],
    nearby_players := [], timestamp_ms := 0 }

/-- A Wizard facing three monsters: the job-specific coordinator
recommends its AOE skill. -/
def wizardState : GameState :=
  { character := mkChar 100 100 50 50 0 100 "Wizard", monsters := [monAt 3, monAt 4, monAt 6],
    inventory := [], nearby_players := [], timestamp_ms := 0 }

/-- The AOE recommendation of the job-specific coordinator. -/
def stormGustAction : Action :=
  { type := "skill", parameters := [("skill", "Storm Gust")],
    reason := "JobSpecificCoordinator: AOE on monsters", confidence := Rat.divInt 17 20 }

/-- Three hostiles and hp ratio 0.20 < 0.30: the planning trigger holds. -/
def planningTriggerState : GameState :=
  { character := mkChar 20 100 50 50 0 100 "Novice",
    monsters := [aggMonAt 9, aggMonAt 9, aggMonAt 9], inventory := [], nearby_players := [],
    timestamp_ms := 0 }

/-- A calm snapshot: no monsters, full health, nothing triggers. -/
def calmState : GameState :=
  { character := mkChar 100 100 50 50 0 100 "Novice", monsters := [], inventory := [],
    nearby_players := [], timestamp_ms := 0 }

/-- The planning state after the first step of the two-step plan has been
executed. -/
def planMid : PlanState :=
  { active_plan := [PlanningCoordinator.heal_step, PlanningCoordinator.retreat_step],
    current_plan_step := 1, has_active_plan := true }

/-- hp 20 / max_hp 100: ratio 0.20, below the 0.25 critical threshold. -/
def criticalHpState : GameState :=
  { character := mkChar 20 100 50 50 0 100 "Novice", monsters := [], inventory := [],
    nearby_players := [], timestamp_ms := 0 }

/-- An NPC-coordinator state in the middle of a dialogue. -/
def talkingNpcState : NPCState := { current_npc_id := "npc7", dialogue_state := .TALKING }

/-- A high-priority (Combat, HIGH) candidate with low confidence. -/
def highPrioCandidate : CoordinatorManager.Candidate :=
  { kind := .combat,
    action := { type := "attack", parameters := [("target", "m1")],
                reason := "CombatCoordinator: Basic attack on M", confidence := Rat.divInt 1 5 } }

/-- A low-priority (Navigation, LOW) candidate with high confidence. -/
def lowPrioCandidate : CoordinatorManager.Candidate :=
  { kind := .navigation,
    action := { type := "move", parameters := [],
                reason := "NavigationCoordinator: Stuck - random walk",
                confidence := Rat.divInt 99 100 } }

/-- The plan-state produced by a fresh synthesis of the two-step plan. -/
def planFull : PlanState :=
  { active_plan := [PlanningCoordinator.heal_step, PlanningCoordinator.retreat_step],
    current_plan_step := 0, has_active_plan := true }

/-! ## Helper lemmas on the arbitration order -/

theorem keyLE_refl (a : CoordinatorManager.Candidate) : keyLE a a :=
  Or.inr ⟨rfl, le_refl _⟩

theorem keyLE_of_keyLT {a b : CoordinatorManager.Candidate} (h : keyLT a b) : keyLE a b := by
  rcases h with h | ⟨h, hq⟩
  · exact Or.inl h
  · exact Or.inr ⟨h, le_of_lt hq⟩

theorem keyLT_trans {a b c : CoordinatorManager.Candidate}
    (h1 : keyLT a b) (h2 : keyLT b c) : keyLT a c := by
  rcases h1 with h1 | ⟨h1, h1q⟩ <;> rcases h2 with h2 | ⟨h2, h2q⟩
  · exact Or.inl (lt_trans h1 h2)
  · exact Or.inl (h2 ▸ h1)
  · exact Or.inl (h1 ▸ h2)
  · exact Or.inr ⟨h1.trans h2, lt_trans h2q h1q⟩

theorem keyLT_of_keyLE_of_keyLT {a b c : CoordinatorManager.Candidate}
    (h1 : keyLE a b) (h2 : keyLT b c) : keyLT a c := by
  rcases h1 with h1 | ⟨h1, h1q⟩ <;> rcases h2 with h2 | ⟨h2, h2q⟩
  · exact Or.inl (lt_trans h1 h2)
  · exact Or.inl (h2 ▸ h1)
  · exact Or.inl (h1 ▸ h2)
  · exact Or.inr ⟨h1.trans h2, lt_of_lt_of_le h2q h1q⟩

theorem keyLT_of_keyLT_of_keyLE {a b c : CoordinatorManager.Candidate}
    (h1 : keyLT a b) (h2 : keyLE b c) : keyLT a c := by
  rcases h1 with h1 | ⟨h1, h1q⟩ <;> rcases h2 with h2 | ⟨h2, h2q⟩
  · exact Or.inl (lt_trans h1 h2)
  · exact Or.inl (h2 ▸ h1)
  · exact Or.inl (h1 ▸ h2)
  · exact Or.inr ⟨h1.trans h2, lt_of_le_of_lt h2q h1q⟩

theorem keyLE_trans {a b c : CoordinatorManager.Candidate}
    (h1 : keyLE a b) (h2 : keyLE b c) : keyLE a c := by
  rcases h1 with h1 | ⟨h1, h1q⟩ <;> rcases h2 with h2 | ⟨h2, h2q⟩
  · exact Or.inl (lt_trans h1 h2)
  · exact Or.inl (h2 ▸ h1)
  · exact Or.inl (h1 ▸ h2)
  · exact Or.inr ⟨h1.trans h2, le_trans h2q h1q⟩

theorem keyLE_of_not_keyLT {a b : CoordinatorManager.Candidate}
    (h : ¬ keyLT a b) : keyLE b a := by
  unfold keyLT at h
  push_neg at h
  rcases Nat.lt_trichotomy a.kind.priority.val b.kind.priority.val with hlt | heq | hgt
  · exact absurd hlt (not_lt.mpr h.1)
  · exact Or.inr ⟨heq.symm, h.2 heq⟩
  · exact Or.inl hgt

theorem candidateLess_eq_true_iff (a b : CoordinatorManager.Candidate) :
    CoordinatorManager.candidateLess a b = true ↔ keyLT a b := by
  unfold CoordinatorManager.candidateLess keyLT natLt qlt
  by_cases h : a.kind.priority.val = b.kind.priority.val
  · simp [h]
  · simp [h]

/-- Full characterisation of the `std::min_element` scan: the result is at
least as good as the accumulator and every scanned element, and it is
either the accumulator itself or the first strictly improving element. -/
theorem selectLoop_spec (rest : List CoordinatorManager.Candidate) :
    ∀ acc : CoordinatorManager.Candidate,
      keyLE (CoordinatorManager.selectLoop acc rest) acc ∧
      (∀ c ∈ rest, keyLE (CoordinatorManager.selectLoop acc rest) c) ∧
      (CoordinatorManager.selectLoop acc rest = acc ∨
        ∃ r1 r2,
          rest = r1 ++ CoordinatorManager.selectLoop acc rest :: r2 ∧
          keyLT (CoordinatorManager.selectLoop acc rest) acc ∧
          ∀ e ∈ r1, keyLT (CoordinatorManager.selectLoop acc rest) e) := by
  induction rest with
  | nil =>
    intro acc
    refine ⟨keyLE_refl acc, ?_, Or.inl rfl⟩
    intro c hc
    exact absurd hc (List.not_mem_nil c)
  | cons c rest ih =>
    intro acc
    by_cases hb : CoordinatorManager.candidateLess c acc = true
    · have hca : keyLT c acc := (candidateLess_eq_true_iff c acc).mp hb
      have heq : CoordinatorManager.selectLoop acc (c :: rest) =
          CoordinatorManager.selectLoop c rest := by
        simp [CoordinatorManager.selectLoop, hb]
      obtain ⟨h1, h2, h3⟩ := ih c
      rw [heq]
      refine ⟨keyLE_of_keyLT (keyLT_of_keyLE_of_keyLT h1 hca), ?_, ?_⟩
      · intro e he
        rcases List.mem_cons.mp he with rfl | he
        · exact h1
        · exact h2 e he
      · rcases h3 with hwc | ⟨r1, r2, hsplit, hlt, hpre⟩
        · right
          refine ⟨[], rest, ?_, ?_, ?_⟩
          · rw [hwc]; rfl
          · rw [hwc]; exact hca
          · intro e he; exact absurd he (List.not_mem_nil e)
        · right
          refine ⟨c :: r1, r2, ?_, keyLT_trans hlt hca, ?_⟩
          · rw [List.cons_append, ← hsplit]
          · intro e he
            rcases List.mem_cons.mp he with rfl | he
            · exact hlt
            · exact hpre e he
    · have hac : keyLE acc c :=
        keyLE_of_not_keyLT (fun hk => hb ((candidateLess_eq_true_iff c acc).mpr hk))
      have heq : CoordinatorManager.selectLoop acc (c :: rest) =
          CoordinatorManager.selectLoop acc rest := by
        simp [CoordinatorManager.selectLoop, hb]
      obtain ⟨h1, h2, h3⟩ := ih acc
      rw [heq]
      refine ⟨h1, ?_, ?_⟩
      · intro e he
        rcases List.mem_cons.mp he with rfl | he
        · exact keyLE_trans h1 hac
        · exact h2 e he
      · rcases h3 with hwacc | ⟨r1, r2, hsplit, hlt, hpre⟩
        · exact Or.inl hwacc
        · right
          refine ⟨c :: r1, r2, by rw [List.cons_append, ← hsplit], hlt, ?_⟩
          intro e he
          rcases List.mem_cons.mp he with rfl | he
          · exact keyLT_of_keyLT_of_keyLE hlt hac
          · exact hpre e he

/-! ## Helper lemmas on navigation, planning and statistics -/

theorem nav_is_stuck_navInit (s : GameState) :
    NavigationCoordinator.is_stuck navInit s = false := by
  unfold NavigationCoordinator.is_stuck
  have h : ile navInit.stuck_threshold navInit.stuck_counter = false := by decide
  rw [h]
  split <;> rfl

theorem nav_cycle_navInit (s : GameState) (rng : Nat × Nat) :
    nav_cycle navInit s rng = (none, navInit) := by
  unfold nav_cycle NavigationCoordinator.should_activate
  rw [nav_is_stuck_navInit]
  rfl

theorem planning_decide_from_init (s : GameState) :
    PlanningCoordinator.decide planInit s =
      if PlanningCoordinator.needs_complex_planning s then
        (PlanningCoordinator.heal_step, planMid)
      else (PlanningCoordinator.no_plan_action, planInit) := by
  unfold PlanningCoordinator.decide PlanningCoordinator.create_plan_for_current_situation
  cases h : PlanningCoordinator.needs_complex_planning s
  · decide
  · decide

theorem planning_decide_from_mid (s : GameState) :
    PlanningCoordinator.decide planMid s = (PlanningCoordinator.retreat_step, planInit) := rfl

theorem update_average_latency_counters (st : Stats) (lat : ℚ) :
    (update_average_latency st lat).reflex_count = st.reflex_count ∧
    (update_average_latency st lat).rules_count = st.rules_count ∧
    (update_average_latency st lat).ml_count = st.ml_count ∧
    (update_average_latency st lat).llm_count = st.llm_count ∧
    (update_average_latency st lat).total_count = st.total_count := by
  unfold update_average_latency
  split <;> exact ⟨rfl, rfl, rfl, rfl, rfl⟩

/-! ## Claim theorems -/

/-- C1 (amended): the engine evaluates Reflex, the coordinator subsystem,
Rules, ML and LLM in that order, but only the coordinator stage gates on
adoption: a coordinator result of kind `none` falls through, while for
the four tiers activation alone is decisive — an activated tier's action
is adopted even when its kind is `none` (for LLM that includes the
`none`/0.2 action of a failed service reply; ML's activation predicate is
hard-wired false).  The engine returns the deterministic fallback `none`
action with confidence 0.5 attributed to Reflex exactly when no tier
activates and the coordinators produce no non-none candidate: the last
conjunct proves the only-when direction. -/
theorem c1_escalation_amended :
    ∀ (cs : CoordState) (llm_last : Int) (s : GameState) (now_ms : Int) (rng : Nat × Nat)
      (mlReply llmReply : Option Action),
      (ReflexTier.should_handle s = true →
        make_decision cs llm_last s now_ms rng mlReply llmReply =
          { action := ReflexTier.decide s, tier_used := .REFLEX, branch := .reflex,
            coord := cs, llm_last_query_time_ms := llm_last }) ∧
      (ReflexTier.should_handle s = false →
        (CoordinatorManager.get_coordinator_decision cs s rng).1.type ≠ "none" →
        make_decision cs llm_last s now_ms rng mlReply llmReply =
          { action := (CoordinatorManager.get_coordinator_decision cs s rng).1,
            tier_used := .RULES, branch := .coordinators,
            coord := (CoordinatorManager.get_coordinator_decision cs s rng).2,
            llm_last_query_time_ms := llm_last }) ∧
      (ReflexTier.should_handle s = false →
        (CoordinatorManager.get_coordinator_decision cs s rng).1.type = "none" →
        RulesTier.should_handle s = true →
        make_decision cs llm_last s now_ms rng mlReply llmReply =
          { action := RulesTier.decide s, tier_used := .RULES, branch := .rules,
            coord := (CoordinatorManager.get_coordinator_decision cs s rng).2,
            llm_last_query_time_ms := llm_last }) ∧
      MLTier.should_handle s = false ∧
      (ReflexTier.should_handle s = false →
        (CoordinatorManager.get_coordinator_decision cs s rng).1.type = "none" →
        RulesTier.should_handle s = false →
        LLMTier.should_handle llm_last now_ms s = true →
        make_decision cs llm_last s now_ms rng mlReply llmReply =
          { action := LLMTier.decide llmReply, tier_used := .LLM, branch := .llm,
            coord := (CoordinatorManager.get_coordinator_decision cs s rng).2,
            llm_last_query_time_ms := now_ms }) ∧
      (ReflexTier.should_handle s = false →
        (CoordinatorManager.get_coordinator_decision cs s rng).1.type = "none" →
        RulesTier.should_handle s = false →
        LLMTier.should_handle llm_last now_ms s = false →
        make_decision cs llm_last s now_ms rng mlReply llmReply =
          { action := fallback_action, tier_used := .REFLEX, branch := .fallback,
            coord := (CoordinatorManager.get_coordinator_decision cs s rng).2,
            llm_last_query_time_ms := llm_last }) ∧
      ((make_decision cs llm_last s now_ms rng mlReply llmReply).branch = Branch.fallback →
        ReflexTier.should_handle s = false ∧
        (CoordinatorManager.get_coordinator_decision cs s rng).1.type = "none" ∧
        RulesTier.should_handle s = false ∧
        LLMTier.should_handle llm_last now_ms s = false) := by
  intro cs llm_last s now_ms rng mlReply llmReply
  refine ⟨?_, ?_, ?_, rfl, ?_, ?_, ?_⟩
  · intro h1
    simp [make_decision, h1]
  · intro h1 h2
    simp [make_decision, h1, h2]
  · intro h1 h2 h3
    simp [make_decision, h1, h2, h3]
  · intro h1 h2 h3 h5
    simp [make_decision, h1, h2, h3, h5, MLTier.should_handle]
  · intro h1 h2 h3 h4
    simp [make_decision, h1, h2, h3, h4, MLTier.should_handle]
  · intro hf
    cases h1 : ReflexTier.should_handle s with
    | true => simp [make_decision, h1] at hf
    | false =>
      by_cases h2 : (CoordinatorManager.get_coordinator_decision cs s rng).1.type = "none"
      case neg => simp [make_decision, h1, h2] at hf
      case pos =>
        cases h3 : RulesTier.should_handle s with
        | true => simp [make_decision, h1, h2, h3] at hf
        | false =>
          cases h5 : LLMTier.should_handle llm_last now_ms s with
          | true => simp [make_decision, h1, h2, h3, h5, MLTier.should_handle] at hf
          | false => exact ⟨rfl, h2, rfl, rfl⟩

/-- C1 (counterexample): on `cexStateC1` the Rules tier activates and its
decision is of kind `none`, yet the engine adopts exactly that action
(attributed to Rules) instead of continuing and returning the fallback,
refuting the claim that a `none` decision of an activated tier escalates
to the next tier. -/
theorem c1_escalation_counterexample :
    RulesTier.should_handle cexStateC1 = true ∧
    (RulesTier.decide cexStateC1).type = "none" ∧
    (make_decision coordInit 0 cexStateC1 0 (0, 0) none none).action =
      RulesTier.decide cexStateC1 ∧
    (make_decision coordInit 0 cexStateC1 0 (0, 0) none none).tier_used = DecisionTier.RULES ∧
    (make_decision coordInit 0 cexStateC1 0 (0, 0) none none).action ≠ fallback_action := by
  decide

/-- Witness for `c1_escalation_amended` at the concrete snapshot
`cexStateC1`. -/
theorem c1_escalation_amended_witness :
    make_decision coordInit 0 cexStateC1 0 (0, 0) none none =
      { action := RulesTier.decide cexStateC1, tier_used := .RULES, branch := .rules,
        coord := (CoordinatorManager.get_coordinator_decision coordInit cexStateC1 (0, 0)).2,
        llm_last_query_time_ms := 0 } :=
  (c1_escalation_amended coordInit 0 cexStateC1 0 (0, 0) none none).2.2.1
    (by decide) (by decide) (by decide)

/-- C2: for every non-empty candidate list the arbitration subsystem
returns the action of a candidate `w` that (1) is at least as good as
every candidate under the lowest-priority-value-then-highest-confidence
order and (2) strictly beats every candidate placed before it in registry
order, i.e. the winner is the earliest candidate attaining the optimum;
being a pure function of the list, the selection is deterministic. -/
theorem c2_arbitration_selection (l : List CoordinatorManager.Candidate) (h : l ≠ []) :
    ∃ w l1 l2,
      CoordinatorManager.select_best_action l = w.action ∧
      l = l1 ++ w :: l2 ∧
      (∀ c ∈ l, keyLE w c) ∧
      (∀ e ∈ l1, keyLT w e) := by
  match l with
  | [] => exact absurd rfl h
  | c :: rest =>
    obtain ⟨h1, h2, h3⟩ := selectLoop_spec rest c
    rcases h3 with hwc | ⟨r1, r2, hsplit, hlt, hpre⟩
    · refine ⟨CoordinatorManager.selectLoop c rest, [], rest, rfl, ?_, ?_, ?_⟩
      · rw [hwc]; rfl
      · intro e he
        rcases List.mem_cons.mp he with rfl | he
        · exact h1
        · exact h2 e he
      · intro e he; exact absurd he (List.not_mem_nil e)
    · refine ⟨CoordinatorManager.selectLoop c rest, c :: r1, r2, rfl, ?_, ?_, ?_⟩
      · rw [List.cons_append, ← hsplit]
      · intro e he
        rcases List.mem_cons.mp he with rfl | he
        · exact keyLE_of_keyLT hlt
        · exact h2 e he
      · intro e he
        rcases List.mem_cons.mp he with rfl | he
        · exact hlt
        · exact hpre e he

/-- Witness for `c2_arbitration_selection`: a HIGH-priority/low-confidence
candidate against a LOW-priority/high-confidence one. -/
theorem c2_arbitration_selection_witness :
    ∃ w l1 l2,
      CoordinatorManager.select_best_action [highPrioCandidate, lowPrioCandidate] = w.action ∧
      [highPrioCandidate, lowPrioCandidate] = l1 ++ w :: l2 ∧
      (∀ c ∈ [highPrioCandidate, lowPrioCandidate], keyLE w c) ∧
      (∀ e ∈ l1, keyLT w e) :=
  c2_arbitration_selection [highPrioCandidate, lowPrioCandidate] (by decide)

/-- C3: on the main decision-cycle call path (`should_activate` gating
`decide`, as the coordinator manager wires it) the navigation coordinator
never updates its position-tracking state: any number of consecutive
cycles from the initial state — in particular `stuck_threshold`
same-position cycles with no escape item — emits no action at all and
leaves the counter at zero, because the only updater,
`navigate_to_destination`, is not on that path (second conjunct: it does
increment the counter when called directly on a same-position snapshot). -/
theorem c3_stuck_counter_never_fires :
    (∀ (n : Nat) (s : GameState) (rng : Nat × Nat),
        nav_run n navInit s rng = (List.replicate n Option.none, navInit)) ∧
    (NavigationCoordinator.navigate_to_destination
        { stuck_counter := 0, stuck_threshold := 3, last_position_x := 5, last_position_y := 5 }
        criticalHpState).2.stuck_counter = 1 := by
  constructor
  · intro n s rng
    induction n with
    | zero => rfl
    | succ n ih =>
      simp [nav_run, nav_cycle_navInit, ih, List.replicate_succ]
  · decide

/-- C4: the zero-denominator guard claimed for every snapshot ratio is
absent from `RulesTier::should_heal` (its hp ratio is NaN at
`max_hp = 0`, reached through `should_handle` when no monsters are
present) and from `EconomyCoordinator::is_overweight` (its weight ratio
is +inf at `max_weight = 0` with positive weight, which even makes the
coordinator activate). -/
theorem c4_zero_denominator_unguarded :
    RulesTier.hp_ratio_value zeroMaxHpState = FloatVal.nan ∧
    RulesTier.should_handle zeroMaxHpState = false ∧
    EconomyCoordinator.weight_ratio_value zeroMaxWeightState = FloatVal.pinf ∧
    EconomyCoordinator.is_overweight zeroMaxWeightState = true := by
  decide

/-- C5 (amended): the registry holds exactly 14 coordinators, and five of
the six named placeholder domains (companions, instances, crafting,
environment, PvP/War) are no-ops whose `should_activate` is false for
every snapshot; the job-specific coordinator is not a no-op. -/
theorem c5_registry_amended :
    CoordinatorManager.registry.length = 14 ∧
    ∀ (cs : CoordState) (s : GameState),
      CoordinatorKind.companions.should_activate cs s = false ∧
      CoordinatorKind.instances.should_activate cs s = false ∧
      CoordinatorKind.crafting.should_activate cs s = false ∧
      CoordinatorKind.environment.should_activate cs s = false ∧
      CoordinatorKind.pvpWoE.should_activate cs s = false :=
  ⟨rfl, fun _ _ => ⟨rfl, rfl, rfl, rfl, rfl⟩⟩

/-- C5 (counterexample): the job-specific coordinator, listed among the
placeholders, activates for a Swordsman with a monster present and, for a
Wizard facing three monsters, contributes a non-none candidate to
arbitration. -/
theorem c5_jobspecific_counterexample :
    CoordinatorKind.jobSpecific.should_activate coordInit swordsmanState = true ∧
    (CoordinatorKind.jobSpecific.decide coordInit wizardState (0, 0)).1 = stormGustAction ∧
    stormGustAction.type ≠ "none" ∧
    (⟨.jobSpecific, stormGustAction⟩ : CoordinatorManager.Candidate) ∈
      (CoordinatorManager.collectLoop CoordinatorManager.registry coordInit wizardState (0, 0)).1 := by
  decide

/-- C6 (amended): while a non-empty plan is active, `decide` never
re-synthesizes — its result is independent of the snapshot, so a
triggering snapshot cannot corrupt the plan in progress; from the empty
plan state a triggering snapshot synthesizes the two-step plan and
returns the heal step, the second `decide` call (any snapshot) returns
the retreat step and clears the plan, and a third call reports no plan
active provided its snapshot no longer satisfies the planning trigger. -/
theorem c6_planning_amended :
    (∀ (st : PlanState) (s1 s2 : GameState),
        st.has_active_plan = true → st.active_plan ≠ [] →
        PlanningCoordinator.decide st s1 = PlanningCoordinator.decide st s2) ∧
    (∀ (s1 s2 s3 : GameState),
        PlanningCoordinator.needs_complex_planning s1 = true →
        PlanningCoordinator.needs_complex_planning s3 = false →
        PlanningCoordinator.decide planInit s1 = (PlanningCoordinator.heal_step, planMid) ∧
        PlanningCoordinator.decide planMid s2 = (PlanningCoordinator.retreat_step, planInit) ∧
        PlanningCoordinator.decide planInit s3 = (PlanningCoordinator.no_plan_action, planInit)) := by
  constructor
  · intro st s1 s2 h1 h2
    have h2b : st.active_plan.isEmpty = false := by
      cases hp : st.active_plan
      · exact absurd hp h2
      · rfl
    simp [PlanningCoordinator.decide, h1, h2b]
  · intro s1 s2 s3 h1 h3
    refine ⟨?_, planning_decide_from_mid s2, ?_⟩
    · rw [planning_decide_from_init s1, if_pos h1]
    · rw [planning_decide_from_init s3, if_neg]
      rw [h3]
      exact Bool.false_ne_true

/-- C6 (counterexample): three consecutive `decide` calls on the same
triggering snapshot do not end with a "no plan active" report — the
third call re-synthesizes a fresh plan and returns its heal step, an
action of kind `item`. -/
theorem c6_planning_counterexample :
    (PlanningCoordinator.decide
        (PlanningCoordinator.decide
            (PlanningCoordinator.decide planInit planningTriggerState).2
            planningTriggerState).2
        planningTriggerState).1 = PlanningCoordinator.heal_step ∧
    PlanningCoordinator.heal_step.type = "item" ∧
    (PlanningCoordinator.decide
        (PlanningCoordinator.decide
            (PlanningCoordinator.decide planInit planningTriggerState).2
            planningTriggerState).2
        planningTriggerState).1 ≠ PlanningCoordinator.no_plan_action := by
  decide

/-- Witness for `c6_planning_amended` on the concrete triggering and calm
snapshots. -/
theorem c6_planning_amended_witness :
    PlanningCoordinator.decide planInit planningTriggerState =
      (PlanningCoordinator.heal_step, planMid) ∧
    PlanningCoordinator.decide planMid planningTriggerState =
      (PlanningCoordinator.retreat_step, planInit) ∧
    PlanningCoordinator.decide planInit calmState =
      (PlanningCoordinator.no_plan_action, planInit) :=
  c6_planning_amended.2 planningTriggerState planningTriggerState calmState
    (by decide) (by decide)

/-- C7: the Reflex `decide` checks fire in the fixed order critical
health, dangerous status, low-health-under-attack, overweight, low SP;
the first match wins with confidence 0.95, and when nothing fires the
result is the `none` action with confidence 0.5. -/
theorem c7_reflex_ordered_checks :
    ∀ s : GameState,
      (ReflexTier.is_hp_critical s = true →
        ReflexTier.decide s =
          { type := "item", parameters := [("item", "White Potion")],
            reason := "Reflex: HP critical (<25%), emergency healing",
            confidence := Rat.divInt 19 20 }) ∧
      (ReflexTier.is_hp_critical s = false → ReflexTier.has_dangerous_status s = true →
        ReflexTier.decide s =
          { type := "item", parameters := [("item", "Green Potion")],
            reason := "Reflex: Dangerous status effect detected",
            confidence := Rat.divInt 19 20 }) ∧
      (ReflexTier.is_hp_critical s = false → ReflexTier.has_dangerous_status s = false →
        ReflexTier.low_hp_under_attack s = true →
        ReflexTier.decide s =
          { type := "item", parameters := [("item", "Red Potion")],
            reason := "Reflex: Low HP while under attack",
            confidence := Rat.divInt 19 20 }) ∧
      (ReflexTier.is_hp_critical s = false → ReflexTier.has_dangerous_status s = false →
        ReflexTier.low_hp_under_attack s = false → ReflexTier.is_overweight s = true →
        ReflexTier.decide s =
          { type := "command", parameters := [("command", "storage")],
            reason := "Reflex: Overweight, need to store items",
            confidence := Rat.divInt 19 20 }) ∧
      (ReflexTier.is_hp_critical s = false → ReflexTier.has_dangerous_status s = false →
        ReflexTier.low_hp_under_attack s = false → ReflexTier.is_overweight s = false →
        ReflexTier.is_sp_low s = true →
        ReflexTier.decide s =
          { type := "item", parameters := [("item", "Blue Potion")],
            reason := "Reflex: SP critically low", confidence := Rat.divInt 19 20 }) ∧
      (ReflexTier.is_hp_critical s = false → ReflexTier.has_dangerous_status s = false →
        ReflexTier.low_hp_under_attack s = false → ReflexTier.is_overweight s = false →
        ReflexTier.is_sp_low s = false →
        ReflexTier.decide s =
          { type := "none", parameters := [],
            reason := "Reflex: No emergency detected", confidence := Rat.divInt 1 2 }) := by
  intro s
  refine ⟨?_, ?_, ?_, ?_, ?_, ?_⟩
  · intro h1
    simp [ReflexTier.decide, h1]
  · intro h1 h2
    simp [ReflexTier.decide, h1, h2]
  · intro h1 h2 h3
    simp [ReflexTier.decide, h1, h2, h3]
  · intro h1 h2 h3 h4
    simp [ReflexTier.decide, h1, h2, h3, h4]
  · intro h1 h2 h3 h4 h5
    simp [ReflexTier.decide, h1, h2, h3, h4, h5]
  · intro h1 h2 h3 h4 h5
    simp [ReflexTier.decide, h1, h2, h3, h4, h5]

/-- Witness for `c7_reflex_ordered_checks`: hp 20 / max_hp 100 (ratio
0.20, below the 0.25 critical threshold) makes Reflex fire the item-use
action at confidence 0.95. -/
theorem c7_reflex_ordered_checks_witness :
    ReflexTier.is_hp_critical criticalHpState = true ∧
    ReflexTier.decide criticalHpState =
      { type := "item", parameters := [("item", "White Potion")],
        reason := "Reflex: HP critical (<25%), emergency healing",
        confidence := Rat.divInt 19 20 } :=
  ⟨by decide, (c7_reflex_ordered_checks criticalHpState).1 (by decide)⟩

/-- C8: in every dialogue state other than Idle the NPC coordinator
activates on every snapshot, and `decide` emits the state-appropriate
continuation at confidence 0.90 (continue for Talking, menu option for
Menu, purchase for Buying) leaving the state unchanged, while the
remaining non-Idle state (Selling, the switch's default) resets the state
to Idle and emits the close-dialogue action. -/
theorem c8_npc_dialogue_fsm :
    ∀ (st : NPCState) (s : GameState),
      st.dialogue_state ≠ DialogueState.IDLE →
      NPCCoordinator.should_activate st s = true ∧
      (st.dialogue_state = .TALKING →
        NPCCoordinator.decide st s =
          ({ CoordinatorBase.create_action "NPCCoordinator" "npc_talk" "Continue dialogue"
               (Rat.divInt 9 10) with parameters := [("action", "continue")] }, st)) ∧
      (st.dialogue_state = .MENU →
        NPCCoordinator.decide st s =
          ({ CoordinatorBase.create_action "NPCCoordinator" "npc_menu" "Select menu option"
               (Rat.divInt 9 10) with parameters := [("option", "0")] }, st)) ∧
      (st.dialogue_state = .BUYING →
        NPCCoordinator.decide st s =
          ({ CoordinatorBase.create_action "NPCCoordinator" "npc_buy" "Purchase items"
               (Rat.divInt 9 10) with parameters := [("items", "potions")] }, st)) ∧
      (st.dialogue_state = .SELLING →
        NPCCoordinator.decide st s =
          (CoordinatorBase.create_action "NPCCoordinator" "npc_close" "Close dialogue"
             (Rat.divInt 4 5),
           { st with dialogue_state := .IDLE })) := by
  intro st s hne
  refine ⟨?_, ?_, ?_, ?_, ?_⟩
  · simp [NPCCoordinator.should_activate, hne]
  · intro h
    simp [NPCCoordinator.decide, NPCCoordinator.handle_active_dialogue, hne, h]
  · intro h
    simp [NPCCoordinator.decide, NPCCoordinator.handle_active_dialogue, hne, h]
  · intro h
    simp [NPCCoordinator.decide, NPCCoordinator.handle_active_dialogue, hne, h]
  · intro h
    simp [NPCCoordinator.decide, NPCCoordinator.handle_active_dialogue, hne, h]

/-- Witness for `c8_npc_dialogue_fsm` in the Talking state. -/
theorem c8_npc_dialogue_fsm_witness :
    NPCCoordinator.should_activate talkingNpcState calmState = true ∧
    NPCCoordinator.decide talkingNpcState calmState =
      ({ CoordinatorBase.create_action "NPCCoordinator" "npc_talk" "Continue dialogue"
           (Rat.divInt 9 10) with parameters := [("action", "continue")] }, talkingNpcState) := by
  have h := c8_npc_dialogue_fsm talkingNpcState calmState (by decide)
  exact ⟨h.1, h.2.1 rfl⟩

/-- C9: the Reflex and Rules tier decisions are pure functions of the
snapshot (the classes have no mutable members), and the Combat and
Consumables coordinator steps leave the shared coordinator state
untouched, so a second invocation on the same snapshot with no
intervening state change yields the identical Action. -/
theorem c9_stateless_decisions :
    ∀ (s : GameState) (cs : CoordState) (rng : Nat × Nat),
      (CoordinatorKind.combat.decide cs s rng).2 = cs ∧
      (CoordinatorKind.combat.decide (CoordinatorKind.combat.decide cs s rng).2 s rng).1 =
        (CoordinatorKind.combat.decide cs s rng).1 ∧
      (CoordinatorKind.consumables.decide cs s rng).2 = cs ∧
      (CoordinatorKind.consumables.decide (CoordinatorKind.consumables.decide cs s rng).2 s rng).1 =
        (CoordinatorKind.consumables.decide cs s rng).1 ∧
      ReflexTier.decide s = ReflexTier.decide s ∧
      RulesTier.decide s = RulesTier.decide s :=
  fun _ _ _ => ⟨rfl, rfl, rfl, rfl, rfl, rfl⟩

/-- C10: the invariant `total = reflex + rules + ml + llm` holds
initially and is preserved by the statistics effect of every decision
call; a fallback-branch call changes none of the five counters reported
by the metrics endpoint, while its latency still enters the running
average exactly as the latency update prescribes. -/
theorem c10_stats_invariant_fallback :
    statsInvariant statsInit ∧
    ∀ (st : Stats) (br : Branch) (lat : ℚ),
      statsInvariant st →
      statsInvariant (record_decision st br lat) ∧
      (br = Branch.fallback →
        metrics_report (record_decision st br lat) =
          (st.total_count, st.reflex_count, st.rules_count, st.ml_count, st.llm_count,
           (update_average_latency st lat).avg_latency_ms)) := by
  constructor
  · rfl
  · intro st br lat hinv
    constructor
    · have h := update_average_latency_counters (update_counters st br) lat
      unfold statsInvariant at hinv ⊢
      unfold record_decision
      rw [h.1, h.2.1, h.2.2.1, h.2.2.2.1, h.2.2.2.2]
      cases br <;> simp [update_counters] <;> omega
    · rintro rfl
      have h := update_average_latency_counters st lat
      show metrics_report (update_average_latency st lat) = _
      unfold metrics_report
      rw [h.1, h.2.1, h.2.2.1, h.2.2.2.1, h.2.2.2.2]

/-- Witness for `c10_stats_invariant_fallback`: a fallback call on the
initial statistics. -/
theorem c10_stats_invariant_fallback_witness :
    statsInvariant (record_decision statsInit Branch.fallback 7) ∧
    metrics_report (record_decision statsInit Branch.fallback 7) =
      (statsInit.total_count, statsInit.reflex_count, statsInit.rules_count, statsInit.ml_count,
       statsInit.llm_count, (update_average_latency statsInit 7).avg_latency_ms) ∧
    (record_decision statsInit Branch.fallback 7).avg_latency_ms = 7 := by
  have h := c10_stats_invariant_fallback.2 statsInit Branch.fallback 7
    c10_stats_invariant_fallback.1
  exact ⟨h.1, h.2 rfl, by decide⟩

end OpenkoreAI
